import Mathlib

/-!
Verification development for the fitnesse frontend conversational session
layer. The definitions below are a shallow embedding of the TypeScript
source: the ChatContainer component state and its handlers
(frontend/src/components/Chat/ChatContainer.tsx), the ChatInput submit gate
(frontend/src/components/Chat/ChatInput.tsx), the Goals page check-in
request (frontend/src/pages/Goals.tsx) and the Nutrition page meal-log
workflow state (frontend/src/pages/Nutrition.tsx). React state updates are
modelled as pure functions from component state to component state;
localStorage is modelled as an association list; network calls are modelled
by passing the outcome (success response or failure) as an explicit
argument to the resolution function.
-/

namespace Fitnesse

/-- The four agent identities, from the AgentType union in ChatContainer.tsx. -/
inductive AgentType where
  | onboarding
  | coordination
  | nutritionist
  | trainer
deriving DecidableEq

/-- Message role, from the Message interface in ChatContainer.tsx. -/
inductive Role where
  | user
  | assistant
deriving DecidableEq

/-- A chat message as held in component state (Message interface). -/
structure Message where
  id : String
  role : Role
  content : String
  created_at : String
deriving DecidableEq

/-- The per-agent localStorage keys (STORAGE_KEYS in ChatContainer.tsx). -/
def STORAGE_KEYS : AgentType → String
  | AgentType.onboarding => "fitnesse_chat_onboarding_id"
  | AgentType.coordination => "fitnesse_chat_coordination_id"
  | AgentType.nutritionist => "fitnesse_chat_nutrition_id"
  | AgentType.trainer => "fitnesse_chat_training_id"

/-- localStorage modelled as an association list from keys to values. -/
abbrev Storage := List (String × String)

/-- localStorage.getItem: first binding for the key, if any. -/
def Storage.getItem (st : Storage) (k : String) : Option String :=
  (st.find? (fun p => p.1 == k)).map Prod.snd

/-- localStorage.setItem: overwrite any existing binding for the key. -/
def Storage.setItem (st : Storage) (k v : String) : Storage :=
  (k, v) :: st.filter (fun p => p.1 != k)

/-- localStorage.removeItem: drop every binding for the key. -/
def Storage.removeItem (st : Storage) (k : String) : Storage :=
  st.filter (fun p => p.1 != k)

/-- JavaScript truthiness test for an optional string: undefined and the
empty string are both falsy. -/
def isFalsy : Option String → Bool
  | none => true
  | some s => s == ""

/-- A server message from the POST /api/chat response (user_message and
assistant_message carry id, content and created_at). -/
structure ServerMessage where
  id : String
  content : String
  created_at : String
deriving DecidableEq

/-- Response metadata; agent_type is absent when the server proposes no
handoff (covers both a missing metadata object and a missing field). -/
structure ChatMetadata where
  agent_type : Option AgentType
deriving DecidableEq

/-- The POST /api/chat success response body destructured in
handleSendMessage. -/
structure ChatResponse where
  conversation_id : String
  user_message : ServerMessage
  assistant_message : ServerMessage
  metadata : ChatMetadata
deriving DecidableEq

/-- The POST /api/chat request body built in handleSendMessage. -/
structure ChatRequest where
  message : String
  conversation_id : Option String
  agent_type : AgentType
deriving DecidableEq

/-- ChatContainer component state: the useState hooks, the storage the
component reads and writes, and the fetchedConversationIdRef guard. -/
structure ChatState where
  messages : List Message
  conversationId : Option String
  isLoading : Bool
  isLoadingHistory : Bool
  currentAgent : AgentType
  storage : Storage
  fetchedConversationIdRef : Option String
deriving DecidableEq

/-- Component state at mount: messages empty, conversationId initialised
from the prop or from localStorage under the initial agent key
(ChatContainer.tsx lines 50 to 64), the fetch guard ref reset to null. -/
def mountState (initialConversationId : Option String) (initialAgent : AgentType)
    (storage : Storage) : ChatState :=
  { messages := []
    conversationId :=
      if isFalsy initialConversationId then Storage.getItem storage (STORAGE_KEYS initialAgent)
      else initialConversationId
    isLoading := false
    isLoadingHistory := false
    currentAgent := initialAgent
    storage := storage
    fetchedConversationIdRef := none }

/-- The request body sent by handleSendMessage: the text, the current
conversation id and the current agent. -/
def buildChatRequest (s : ChatState) (message : String) : ChatRequest :=
  { message := message
    conversation_id := s.conversationId
    agent_type := s.currentAgent }

/-- The optimistic local echo appended before the network call resolves. -/
def optimisticMessage (message tempId now : String) : Message :=
  { id := tempId, role := Role.user, content := message, created_at := now }

/-- Start of handleSendMessage: append the optimistic message and set
isLoading. -/
def sendStart (s : ChatState) (message tempId now : String) : ChatState :=
  { s with
    messages := s.messages ++ [optimisticMessage message tempId now]
    isLoading := true }

/-- Convert a server message plus its role into a component Message. -/
def serverToMessage (r : Role) (m : ServerMessage) : Message :=
  { id := m.id, role := r, content := m.content, created_at := m.created_at }

/-- The success reconciliation of the message list (ChatContainer.tsx lines
158 to 178): remove the temporary optimistic message by id and append the
two authoritative server messages. -/
def reconcileSuccess (prev : List Message) (tempUserMessageId : String)
    (user_message assistant_message : ServerMessage) : List Message :=
  prev.filter (fun msg => msg.id != tempUserMessageId)
    ++ [serverToMessage Role.user user_message,
        serverToMessage Role.assistant assistant_message]

/-- The human-readable failure text: the server detail when present, else
the fallback string (ChatContainer.tsx line 182). -/
def errorContent (detail : Option String) : String :=
  "⚠️ " ++ detail.getD "Something went wrong. Try again."

/-- The synthetic assistant-role error message appended on failure. -/
def errorMessage (detail : Option String) (errId errNow : String) : Message :=
  { id := errId, role := Role.assistant, content := errorContent detail, created_at := errNow }

/-- The pure handoff decision as specified: keep the current identity when
locked, otherwise adopt a proposed identity when one is present. The source
inlines this logic at ChatContainer.tsx lines 143 to 146. -/
def nextIdentity (lockAgent : Bool) (current : AgentType) (proposed : Option AgentType) : AgentType :=
  if !lockAgent && proposed.isSome then proposed.getD current else current

/-- Outcome of the POST /api/chat network call. -/
inductive SendOutcome where
  | success (resp : ChatResponse)
  | failure (detail : Option String)

/-- Success branch of handleSendMessage (ChatContainer.tsx lines 140 to
178). The captured agent and conversation id are the closure values from
the render at submit time; the agent handoff check, the new-conversation
persistence, and the message reconciliation act on the state at resolve
time. The storage write is keyed by the captured submit-time agent because
setCurrentAgent does not change the closure variable read on line 152. -/
def sendResolveSuccess (lockAgent : Bool) (capturedAgent : AgentType)
    (capturedCid : Option String) (tempId : String) (s : ChatState)
    (resp : ChatResponse) : ChatState :=
  let startNew : Bool := isFalsy capturedCid && resp.conversation_id != ""
  { messages := reconcileSuccess s.messages tempId resp.user_message resp.assistant_message
    conversationId := if startNew then some resp.conversation_id else s.conversationId
    isLoading := false
    isLoadingHistory := s.isLoadingHistory
    currentAgent :=
      if !lockAgent && resp.metadata.agent_type.isSome then
        resp.metadata.agent_type.getD s.currentAgent
      else s.currentAgent
    storage :=
      if startNew then Storage.setItem s.storage (STORAGE_KEYS capturedAgent) resp.conversation_id
      else s.storage
    fetchedConversationIdRef := s.fetchedConversationIdRef }

/-- Failure branch of handleSendMessage (ChatContainer.tsx lines 179 to
186): remove the optimistic message, append one synthetic error message,
clear isLoading; nothing else changes. -/
def sendResolveFailure (tempId : String) (s : ChatState) (detail : Option String)
    (errId errNow : String) : ChatState :=
  { s with
    messages := s.messages.filter (fun m => m.id != tempId)
      ++ [errorMessage detail errId errNow]
    isLoading := false }

/-- Resolution of a send against the state at resolve time. -/
def sendResolve (lockAgent : Bool) (capturedAgent : AgentType) (capturedCid : Option String)
    (tempId : String) (s : ChatState) (outcome : SendOutcome)
    (errId errNow : String) : ChatState :=
  match outcome with
  | SendOutcome.success resp => sendResolveSuccess lockAgent capturedAgent capturedCid tempId s resp
  | SendOutcome.failure detail => sendResolveFailure tempId s detail errId errNow

/-- Whether handleSendMessage invokes the onConversationStart callback:
only when no conversation id existed at submit time and the server returned
one (ChatContainer.tsx line 149 to 151). -/
def notifiesConversationStart (capturedCid : Option String) (resp : ChatResponse) : Bool :=
  isFalsy capturedCid && resp.conversation_id != ""

/-- The whole handleSendMessage run with no interleaved state change: the
optimistic append followed by resolution, with the submit-time agent and
conversation id captured from the pre-state. -/
def handleSendMessage (lockAgent : Bool) (s : ChatState) (message tempId now : String)
    (outcome : SendOutcome) (errId errNow : String) : ChatState :=
  sendResolve lockAgent s.currentAgent s.conversationId tempId
    (sendStart s message tempId now) outcome errId errNow

/-- The disabled prop passed to ChatInput (ChatContainer.tsx line 320). -/
def chatInputDisabled (s : ChatState) : Bool :=
  s.isLoading || s.isLoadingHistory

/-- ChatInput.handleSubmit guard (ChatInput.tsx lines 30 to 41) combined
with the container wiring: a submit is accepted only when the trimmed text
is nonempty and the input is not disabled; an accepted submit starts the
send, a rejected one leaves the state untouched. -/
def handleSubmit (s : ChatState) (raw tempId now : String) : ChatState × Bool :=
  if raw.trim != "" && !chatInputDisabled s then
    (sendStart s raw.trim tempId now, true)
  else
    (s, false)

/-- Agent switch from the dropdown (ChatContainer.tsx lines 106 to 110):
only the current agent changes; the conversation id is left as it was. -/
def handleAgentSwitch (s : ChatState) (agent : AgentType) : ChatState :=
  { s with currentAgent := agent }

/-- Outcome of the GET conversation messages call. -/
inductive HistoryOutcome where
  | ok (msgs : List Message)
  | err (status : Nat)

/-- One run of the history-load effect (ChatContainer.tsx lines 66 to 93).
Returns the new state and whether a fetch was issued. The guard returns
early when there is no conversation id or the ref already holds it; a
fetch sets the ref synchronously first; on error the ref is reset, and a
404 additionally removes the persisted mapping for the initial agent and
clears the conversation id. -/
def historyEffect (initialAgent : AgentType) (s : ChatState)
    (outcome : HistoryOutcome) : ChatState × Bool :=
  match s.conversationId with
  | none => (s, false)
  | some id =>
    if s.fetchedConversationIdRef = some id then (s, false)
    else
      match outcome with
      | HistoryOutcome.ok msgs =>
        ({ s with
            fetchedConversationIdRef := some id
            messages := msgs
            isLoadingHistory := false }, true)
      | HistoryOutcome.err status =>
        if status = 404 then
          ({ s with
              fetchedConversationIdRef := none
              storage := Storage.removeItem s.storage (STORAGE_KEYS initialAgent)
              conversationId := none
              isLoadingHistory := false }, true)
        else
          ({ s with
              fetchedConversationIdRef := none
              isLoadingHistory := false }, true)

/-- A session-level event: a mount creates a fresh component instance over
the persisted storage (the useRef guard starts at null again); an effect
run executes the history-load effect on the current instance. -/
inductive SessionEvent where
  | mount (initialConversationId : Option String) (initialAgent : AgentType)
  | effectRun (outcome : HistoryOutcome)

/-- Session-level state: the current component instance, the initialAgent
prop it was mounted with, and the log of conversation ids for which a
history fetch was actually issued. -/
structure SessionState where
  initialAgent : AgentType
  inst : ChatState
  fetchLog : List String
deriving DecidableEq

/-- One session step. Storage survives a remount; component state does not. -/
def sessionStep (ss : SessionState) (e : SessionEvent) : SessionState :=
  match e with
  | SessionEvent.mount initCid agent =>
    { initialAgent := agent
      inst := mountState initCid agent ss.inst.storage
      fetchLog := ss.fetchLog }
  | SessionEvent.effectRun outcome =>
    let r := historyEffect ss.initialAgent ss.inst outcome
    { ss with
      inst := r.1
      fetchLog := if r.2 then ss.fetchLog ++ ss.inst.conversationId.toList else ss.fetchLog }

/-- Run a list of session events. -/
def sessionRun (ss : SessionState) (es : List SessionEvent) : SessionState :=
  es.foldl sessionStep ss

/-- Whether an event is an effect run whose fetch, if issued, succeeds. -/
def isOkEffect : SessionEvent → Bool
  | SessionEvent.effectRun (HistoryOutcome.ok _) => true
  | _ => false

/-- The history-effect guard condition: either there is no conversation id,
or the ref already holds it. When this holds the effect is a no-op. -/
def Guarded (s : ChatState) : Prop :=
  s.conversationId = none ∨ s.fetchedConversationIdRef = s.conversationId

/-- A POST request as issued through the api client: path and body, the
body being a flat list of named string fields. -/
structure PostRequest where
  path : String
  bodyFields : List (String × String)
deriving DecidableEq

/-- The goal check-in commit request built by createCheckInMutation
(Goals.tsx lines 39 to 51): POST /api/logs/goals with body fields text and
logged_at. -/
def createCheckInRequest (checkInText loggedAt : String) : PostRequest :=
  { path := "/api/logs/goals"
    bodyFields := [("text", checkInText), ("logged_at", loggedAt)] }

/-- The goals log body field names as the specification states them; kept
separate from the source-derived definition so the two can be compared. -/
def specGoalsLogBodyFields : List String :=
  ["raw_text", "parsed_data", "confirmed_data", "logged_at"]

/-- The meal parse request built by parseMealMutation (Nutrition.tsx lines
44 to 51). -/
def parseMealRequest (text loggedAt : String) : PostRequest :=
  { path := "/api/logs/meals/parse"
    bodyFields := [("text", text), ("logged_at", loggedAt)] }

/-- The numeric estimate of a parsed meal (MealParseResult.estimate in
Nutrition.tsx); absent fields are unset, not zero. -/
structure MealEstimate where
  calories : Option Rat
  protein_g : Option Rat
  carbs_g : Option Rat
  fat_g : Option Rat
deriving DecidableEq

/-- A parsed meal result (MealParseResult in Nutrition.tsx). -/
structure MealParseResult where
  normalized_text : Option String
  estimate : Option MealEstimate
  confidence : Option Rat
  questions : Option (List String)
deriving DecidableEq

/-- The editable confirmation fields seeded from the estimate. -/
structure ConfirmedFields where
  calories : Option Rat
  protein_g : Option Rat
  carbs_g : Option Rat
  fat_g : Option Rat
deriving DecidableEq

/-- The Nutrition page meal-log workflow state: the raw text, the parsed
result, the edited confirmation fields and the saved banner (Nutrition.tsx
lines 27 to 30). -/
structure NutritionState where
  mealText : String
  parsed : Option MealParseResult
  confirmed : ConfirmedFields
  savedMessage : Option String
deriving DecidableEq

/-- The Cancel action in the parsed state (Nutrition.tsx lines 276 to 283):
the click handler only calls setParsed with null, so the parsed result is
cleared, nothing else changes, and no request is issued. -/
def cancelParsed (s : NutritionState) : NutritionState × List PostRequest :=
  ({ s with parsed := none }, [])

/-! Helper lemmas about the storage model. -/

/-- Reading back the key just written returns the written value. -/
theorem Storage.getItem_setItem_self (st : Storage) (k v : String) :
    Storage.getItem (Storage.setItem st k v) k = some v := by
  simp [Storage.getItem, Storage.setItem, List.find?]

/-- Writing one key leaves the value read at any other key unchanged. -/
theorem Storage.getItem_setItem_ne (st : Storage) (k k2 v : String) (h : k2 ≠ k) :
    Storage.getItem (Storage.setItem st k v) k2 = Storage.getItem st k2 := by
  have hb : (k == k2) = false := by
    simp [beq_eq_false_iff_ne]
    exact fun he => h he.symm
  simp only [Storage.getItem, Storage.setItem, List.find?, hb]
  induction st with
  | nil => rfl
  | cons hd tl ih =>
    by_cases hk : hd.1 = k
    · have h1 : (hd.1 != k) = false := by simp [hk]
      have h2 : (hd.1 == k2) = false := by
        simp [beq_eq_false_iff_ne, hk]
        exact fun he => h he.symm
      simp only [List.filter, h1, List.find?, h2]
      exact ih
    · have h1 : (hd.1 != k) = true := bne_iff_ne.mpr hk
      simp only [List.filter, h1, List.find?]
      by_cases h2 : hd.1 = k2
      · simp [h2]
      · have h2b : (hd.1 == k2) = false := beq_eq_false_iff_ne.mpr h2
        simp only [h2b]
        exact ih

/-- After removing a key, reading it returns nothing. -/
theorem Storage.getItem_removeItem_self (st : Storage) (k : String) :
    Storage.getItem (Storage.removeItem st k) k = none := by
  have h : List.find? (fun p => p.1 == k) (st.filter (fun p => p.1 != k)) = none := by
    apply List.find?_eq_none.mpr
    intro p hp
    have h2 := (List.mem_filter.mp hp).2
    simp only [bne_iff_ne, ne_eq] at h2
    simp [h2]
  simp [Storage.getItem, Storage.removeItem, h]

/-!
C10 — cancel in the parsed state of the meal-log workflow.
-/

/-- C10: cancelling a parsed meal result resets only the parsed result to
none and issues no network request; the raw meal text, the edited
confirmation fields and the saved banner are unchanged. -/
theorem cancelParsed_resets_only_parsed (s : NutritionState) :
    (cancelParsed s).1.parsed = none
    ∧ (cancelParsed s).1.mealText = s.mealText
    ∧ (cancelParsed s).1.confirmed = s.confirmed
    ∧ (cancelParsed s).1.savedMessage = s.savedMessage
    ∧ (cancelParsed s).2 = [] :=
  ⟨rfl, rfl, rfl, rfl, rfl⟩

/-!
C9 — the goal check-in commit request.
-/

/-- C9 counterexample: the goal check-in commit body has field names text
and logged_at, not the raw_text, parsed_data, confirmed_data, logged_at
shape the specification states. -/
theorem createCheckInRequest_shape_cex :
    (createCheckInRequest "w" "t").bodyFields.map Prod.fst = ["text", "logged_at"]
    ∧ (createCheckInRequest "w" "t").bodyFields.map Prod.fst ≠ specGoalsLogBodyFields := by
  decide

/-- C9 as amended: every goal check-in commit is a POST to /api/logs/goals
whose body carries exactly the fields text (the raw check-in text) and
logged_at (the timestamp); the client treats the response as opaque. -/
theorem createCheckInRequest_shape (checkInText loggedAt : String) :
    (createCheckInRequest checkInText loggedAt).path = "/api/logs/goals"
    ∧ (createCheckInRequest checkInText loggedAt).bodyFields.map Prod.fst = ["text", "logged_at"]
    ∧ (createCheckInRequest checkInText loggedAt).bodyFields
        = [("text", checkInText), ("logged_at", loggedAt)] :=
  ⟨rfl, rfl, rfl⟩

/-!
C5 — a second submit while a send is in flight is rejected.
-/

/-- C5: while a send is in flight the input is disabled, so a second submit
is rejected and the component state, the message cache included, is
returned unchanged. -/
theorem secondSubmit_rejected (s : ChatState) (raw tempId now : String)
    (h : s.isLoading = true) :
    handleSubmit s raw tempId now = (s, false) := by
  simp [handleSubmit, chatInputDisabled, h]

/-- Witness for the second-submit rejection at a concrete loading state. -/
theorem secondSubmit_rejected_witness :
    handleSubmit ⟨[], none, true, false, AgentType.onboarding, [], none⟩ "hi" "temp-1" "t1"
      = (⟨[], none, true, false, AgentType.onboarding, [], none⟩, false) :=
  secondSubmit_rejected _ "hi" "temp-1" "t1" rfl

/-!
C3 — the agent handoff policy on send reconciliation.
-/

/-- C3: on success reconciliation, a locked surface keeps the submit-state
agent identity for every current and proposed pair; an unlocked surface
adopts the server proposal when one is present; and in general the
resulting identity is the nextIdentity decision function applied to the
lock flag, the current identity and the proposal. -/
theorem handoff_policy (capAgent : AgentType) (capCid : Option String) (tempId : String)
    (s : ChatState) (resp : ChatResponse) :
    (sendResolveSuccess true capAgent capCid tempId s resp).currentAgent = s.currentAgent
    ∧ (∀ p : AgentType, resp.metadata.agent_type = some p →
        (sendResolveSuccess false capAgent capCid tempId s resp).currentAgent = p)
    ∧ (∀ lock : Bool, (sendResolveSuccess lock capAgent capCid tempId s resp).currentAgent
        = nextIdentity lock s.currentAgent resp.metadata.agent_type) := by
  refine ⟨?_, ?_, ?_⟩
  · simp [sendResolveSuccess]
  · intro p hp
    simp [sendResolveSuccess, hp]
  · intro lock
    cases lock <;> cases h : resp.metadata.agent_type <;>
      simp [sendResolveSuccess, nextIdentity, h]

/-- Witness for the handoff policy: with identity nutritionist and a locked
surface, a server proposal of trainer leaves the identity nutritionist;
with the surface unlocked the same response switches it to trainer. -/
theorem handoff_policy_witness :
    (sendResolveSuccess true AgentType.nutritionist (some "c1") "temp-1"
      ⟨[], some "c1", true, false, AgentType.nutritionist, [], none⟩
      ⟨"c1", ⟨"u1", "hi", "t1"⟩, ⟨"a1", "ok", "t2"⟩,
        ⟨some AgentType.trainer⟩⟩).currentAgent
      = AgentType.nutritionist
    ∧ (sendResolveSuccess false AgentType.nutritionist (some "c1") "temp-1"
      ⟨[], some "c1", true, false, AgentType.nutritionist, [], none⟩
      ⟨"c1", ⟨"u1", "hi", "t1"⟩, ⟨"a1", "ok", "t2"⟩,
        ⟨some AgentType.trainer⟩⟩).currentAgent
      = AgentType.trainer :=
  ⟨(handoff_policy AgentType.nutritionist (some "c1") "temp-1" _ _).1,
   (handoff_policy AgentType.nutritionist (some "c1") "temp-1" _ _).2.1
     AgentType.trainer rfl⟩

/-!
C2 — failed sends roll back the optimistic message.
-/

/-- C2: when the send fails, the optimistic message is removed entirely,
exactly one synthetic assistant-role message carrying the human-readable
failure reason is appended, the exchange returns to the idle state, and the
conversation state is otherwise unchanged. -/
theorem sendFailure_rollback (lockAgent : Bool) (s : ChatState)
    (message tempId now : String) (detail : Option String) (errId errNow : String)
    (hfresh : ∀ m ∈ s.messages, m.id ≠ tempId)
    (herr : errId ≠ tempId) :
    let s2 := handleSendMessage lockAgent s message tempId now
      (SendOutcome.failure detail) errId errNow
    s2.messages = s.messages ++ [errorMessage detail errId errNow]
    ∧ (errorMessage detail errId errNow).role = Role.assistant
    ∧ (errorMessage detail errId errNow).content
        = "⚠️ " ++ detail.getD "Something went wrong. Try again."
    ∧ tempId ∉ s2.messages.map Message.id
    ∧ s2.isLoading = false
    ∧ s2.conversationId = s.conversationId
    ∧ s2.currentAgent = s.currentAgent
    ∧ s2.storage = s.storage
    ∧ s2.isLoadingHistory = s.isLoadingHistory
    ∧ s2.fetchedConversationIdRef = s.fetchedConversationIdRef := by
  intro s2
  have hmsg : s2.messages = s.messages ++ [errorMessage detail errId errNow] := by
    show (sendResolveFailure tempId (sendStart s message tempId now) detail errId errNow).messages
      = s.messages ++ [errorMessage detail errId errNow]
    simp only [sendResolveFailure, sendStart]
    rw [List.filter_append]
    have h1 : s.messages.filter (fun m => m.id != tempId) = s.messages :=
      List.filter_eq_self.mpr (fun m hm => bne_iff_ne.mpr (hfresh m hm))
    have h2 : [optimisticMessage message tempId now].filter (fun m => m.id != tempId) = [] := by
      simp [optimisticMessage]
    rw [h1, h2, List.append_nil]
  refine ⟨hmsg, rfl, rfl, ?_, rfl, rfl, rfl, rfl, rfl, rfl⟩
  intro hmem
  rw [hmsg, List.map_append] at hmem
  rcases List.mem_append.mp hmem with h | h
  · rcases List.mem_map.mp h with ⟨m, hm, hid⟩
    exact hfresh m hm hid
  · have : tempId = errId := by simpa [errorMessage] using h
    exact herr this.symm

/-- Witness for the failure rollback at a concrete state with one message
and a fresh temporary id. -/
theorem sendFailure_rollback_witness :
    (handleSendMessage false
        ⟨[⟨"m1", Role.assistant, "hello", "t0"⟩], some "c1", false, false,
          AgentType.onboarding, [], none⟩
        "hi" "temp-1" "t1" (SendOutcome.failure none) "error-2" "t2").messages
      = [⟨"m1", Role.assistant, "hello", "t0"⟩] ++ [errorMessage none "error-2" "t2"] :=
  (sendFailure_rollback false _ "hi" "temp-1" "t1" none "error-2" "t2"
    (by decide) (by decide)).1

/-!
C7 — a send that starts a new conversation persists the returned id under
the submit-time agent identity and notifies the caller.
-/

/-- C7: when a send that started with no conversation id succeeds, the
returned id is persisted into storage under the key of the agent identity
active at submit time, the in-memory conversation id becomes the returned
id, and the caller notification fires. The response metadata is left
unconstrained, so this also covers a server-proposed handoff to a different
identity. -/
theorem newConversation_persisted (lockAgent : Bool) (s : ChatState)
    (message tempId now errId errNow : String) (resp : ChatResponse)
    (hnone : isFalsy s.conversationId = true)
    (hcid : resp.conversation_id ≠ "") :
    let s2 := handleSendMessage lockAgent s message tempId now
      (SendOutcome.success resp) errId errNow
    Storage.getItem s2.storage (STORAGE_KEYS s.currentAgent) = some resp.conversation_id
    ∧ s2.conversationId = some resp.conversation_id
    ∧ notifiesConversationStart s.conversationId resp = true := by
  intro s2
  have hb : (resp.conversation_id != "") = true := bne_iff_ne.mpr hcid
  have hstart : (isFalsy s.conversationId && resp.conversation_id != "") = true := by
    rw [hnone, hb]
    rfl
  refine ⟨?_, ?_, ?_⟩
  · show Storage.getItem (sendResolveSuccess lockAgent s.currentAgent s.conversationId tempId
        (sendStart s message tempId now) resp).storage (STORAGE_KEYS s.currentAgent)
      = some resp.conversation_id
    simp only [sendResolveSuccess, hstart, if_true]
    exact Storage.getItem_setItem_self _ _ _
  · show (sendResolveSuccess lockAgent s.currentAgent s.conversationId tempId
        (sendStart s message tempId now) resp).conversationId = some resp.conversation_id
    simp [sendResolveSuccess, hstart]
  · show notifiesConversationStart s.conversationId resp = true
    rw [notifiesConversationStart, hstart]

/-- Witness for the new-conversation persistence: submit-time agent
nutritionist, no prior conversation, response proposing a handoff to
trainer; the id is persisted under the nutritionist key. -/
theorem newConversation_persisted_witness :
    Storage.getItem
      (handleSendMessage false ⟨[], none, false, false, AgentType.nutritionist, [], none⟩
        "hi" "temp-1" "t1"
        (SendOutcome.success
          ⟨"c9", ⟨"u1", "hi", "tu"⟩, ⟨"a1", "ok", "ta"⟩, ⟨some AgentType.trainer⟩⟩)
        "error-2" "t2").storage
      (STORAGE_KEYS AgentType.nutritionist)
      = some "c9" :=
  (newConversation_persisted false ⟨[], none, false, false, AgentType.nutritionist, [], none⟩
    "hi" "temp-1" "t1" "error-2" "t2"
    ⟨"c9", ⟨"u1", "hi", "tu"⟩, ⟨"a1", "ok", "ta"⟩, ⟨some AgentType.trainer⟩⟩
    rfl (by decide)).1

/-!
C8 — session mappings across agent identities.
-/

/-- C8 counterexample: with a conversation id X persisted under the
onboarding key, mounting on onboarding and switching the agent to trainer
makes the next request carry agent identity trainer together with
conversation id X, although X was persisted under the onboarding key and
the trainer key holds nothing. The switch handler does not reset the
in-memory conversation id. -/
theorem sessionMapping_cross_agent_cex :
    (buildChatRequest (handleAgentSwitch (mountState none AgentType.onboarding
        [(STORAGE_KEYS AgentType.onboarding, "X")]) AgentType.trainer) "hi").agent_type
      = AgentType.trainer
    ∧ (buildChatRequest (handleAgentSwitch (mountState none AgentType.onboarding
        [(STORAGE_KEYS AgentType.onboarding, "X")]) AgentType.trainer) "hi").conversation_id
      = some "X"
    ∧ Storage.getItem [(STORAGE_KEYS AgentType.onboarding, "X")]
        (STORAGE_KEYS AgentType.trainer) = none
    ∧ STORAGE_KEYS AgentType.onboarding ≠ STORAGE_KEYS AgentType.trainer := by
  decide

/-- C8 as amended: storage writes are keyed strictly by the submit-time
agent identity — resolving a send never changes the value stored under any
other key — but the claimed request-side isolation fails, because an
in-session agent switch keeps the in-memory conversation id, so a request
carrying identity B may include the id persisted under identity A. -/
theorem send_touches_only_submit_agent_key (lockAgent : Bool) (capAgent : AgentType)
    (capCid : Option String) (tempId : String) (s : ChatState) (outcome : SendOutcome)
    (errId errNow : String) (k : String) (hk : k ≠ STORAGE_KEYS capAgent) :
    Storage.getItem
        (sendResolve lockAgent capAgent capCid tempId s outcome errId errNow).storage k
      = Storage.getItem s.storage k := by
  cases outcome with
  | failure detail => rfl
  | success resp =>
    show Storage.getItem (sendResolveSuccess lockAgent capAgent capCid tempId s resp).storage k
      = Storage.getItem s.storage k
    simp only [sendResolveSuccess]
    by_cases hs : (isFalsy capCid && resp.conversation_id != "") = true
    · simp only [hs, if_true]
      exact Storage.getItem_setItem_ne _ _ _ _ hk
    · simp [hs]

/-- Witness for the storage-key isolation at a concrete send that creates a
new conversation under the onboarding key: the trainer key is unchanged. -/
theorem send_touches_only_submit_agent_key_witness :
    Storage.getItem
        (sendResolve false AgentType.onboarding none "temp-1"
          ⟨[], none, true, false, AgentType.onboarding, [], none⟩
          (SendOutcome.success ⟨"c3", ⟨"u1", "hi", "tu"⟩, ⟨"a1", "ok", "ta"⟩, ⟨none⟩⟩)
          "error-2" "t2").storage
        (STORAGE_KEYS AgentType.trainer)
      = Storage.getItem ([] : Storage) (STORAGE_KEYS AgentType.trainer) :=
  send_touches_only_submit_agent_key false AgentType.onboarding none "temp-1"
    ⟨[], none, true, false, AgentType.onboarding, [], none⟩
    (SendOutcome.success ⟨"c3", ⟨"u1", "hi", "tu"⟩, ⟨"a1", "ok", "ta"⟩, ⟨none⟩⟩)
    "error-2" "t2" (STORAGE_KEYS AgentType.trainer) (by decide)

/-!
C4 — history fetch 404 recovery.
-/

/-- C4: when the history fetch for a persisted conversation id fails with
status 404, the persisted mapping for the owning agent is removed, the
in-memory conversation id is reset so the next send request carries none
and therefore creates a fresh conversation, and nothing is surfaced to the
user: the message list is untouched and the loading flag is cleared. -/
theorem history404_recovery (initialAgent : AgentType) (s : ChatState)
    (x nextMsg : String)
    (hcid : s.conversationId = some x)
    (href : ¬ s.fetchedConversationIdRef = some x) :
    let s2 := (historyEffect initialAgent s (HistoryOutcome.err 404)).1
    Storage.getItem s2.storage (STORAGE_KEYS initialAgent) = none
    ∧ s2.conversationId = none
    ∧ (buildChatRequest s2 nextMsg).conversation_id = none
    ∧ s2.messages = s.messages
    ∧ s2.isLoadingHistory = false := by
  intro s2
  have heq : historyEffect initialAgent s (HistoryOutcome.err 404)
      = ({ s with
            fetchedConversationIdRef := none
            storage := Storage.removeItem s.storage (STORAGE_KEYS initialAgent)
            conversationId := none
            isLoadingHistory := false }, true) := by
    simp [historyEffect, hcid, href]
  refine ⟨?_, ?_, ?_, ?_, ?_⟩
  · show Storage.getItem ((historyEffect initialAgent s (HistoryOutcome.err 404)).1).storage
        (STORAGE_KEYS initialAgent) = none
    rw [heq]
    exact Storage.getItem_removeItem_self _ _
  · show ((historyEffect initialAgent s (HistoryOutcome.err 404)).1).conversationId = none
    rw [heq]
  · show (buildChatRequest ((historyEffect initialAgent s (HistoryOutcome.err 404)).1)
        nextMsg).conversation_id = none
    rw [heq]
    rfl
  · show ((historyEffect initialAgent s (HistoryOutcome.err 404)).1).messages = s.messages
    rw [heq]
  · show ((historyEffect initialAgent s (HistoryOutcome.err 404)).1).isLoadingHistory = false
    rw [heq]

/-- Witness for the 404 recovery at a concrete state whose storage maps the
onboarding key to the stale conversation id. -/
theorem history404_recovery_witness :
    Storage.getItem
        ((historyEffect AgentType.onboarding
          ⟨[], some "X", false, true, AgentType.onboarding,
            [(STORAGE_KEYS AgentType.onboarding, "X")], none⟩
          (HistoryOutcome.err 404)).1).storage
        (STORAGE_KEYS AgentType.onboarding)
      = none :=
  (history404_recovery AgentType.onboarding
    ⟨[], some "X", false, true, AgentType.onboarding,
      [(STORAGE_KEYS AgentType.onboarding, "X")], none⟩
    "X" "next" rfl (by decide)).1

/-!
C1 — success reconciliation of the message list.
-/

/-- Helper: the kept and removed parts of the split by the temporary id
account for the whole list. -/
theorem length_filter_bne_add (l : List Message) (tempId : String) :
    (l.filter (fun m => m.id != tempId)).length
      + (l.filter (fun m => m.id == tempId)).length = l.length := by
  induction l with
  | nil => rfl
  | cons hd tl ih =>
    by_cases h : hd.id = tempId
    · have h1 : (hd.id != tempId) = false := by simp [h]
      have h2 : (hd.id == tempId) = true := beq_iff_eq.mpr h
      simp [List.filter_cons, h1, h2]
      omega
    · have h1 : (hd.id != tempId) = true := bne_iff_ne.mpr h
      have h2 : (hd.id == tempId) = false := beq_eq_false_iff_ne.mpr h
      simp [List.filter_cons, h1, h2]
      omega

/-- C1: a successful send resolution leaves the visible list equal to the
resolve-time list with the single optimistic message removed by its
temporary id and exactly the two server messages appended at the end, user
message then assistant message, carrying the server ids, contents and
timestamps; the surviving messages form a sublist of the previous list, so
nothing is reordered; with fresh server ids no message id is duplicated;
and the length grows by exactly one. -/
theorem reconcile_success_spec (lockAgent : Bool) (capAgent : AgentType)
    (capCid : Option String) (tempId : String) (s : ChatState) (resp : ChatResponse)
    (hone : (s.messages.filter (fun m => m.id == tempId)).length = 1)
    (hnodup : (s.messages.map Message.id).Nodup)
    (hu : resp.user_message.id ∉ s.messages.map Message.id)
    (ha : resp.assistant_message.id ∉ s.messages.map Message.id)
    (hua : resp.user_message.id ≠ resp.assistant_message.id) :
    let s2 := sendResolveSuccess lockAgent capAgent capCid tempId s resp
    s2.messages = s.messages.filter (fun m => m.id != tempId)
        ++ [serverToMessage Role.user resp.user_message,
            serverToMessage Role.assistant resp.assistant_message]
    ∧ (s.messages.filter (fun m => m.id != tempId)).Sublist s.messages
    ∧ (s2.messages.map Message.id).Nodup
    ∧ s2.messages.length = s.messages.length + 1 := by
  intro s2
  have hmsg : s2.messages = s.messages.filter (fun m => m.id != tempId)
      ++ [serverToMessage Role.user resp.user_message,
          serverToMessage Role.assistant resp.assistant_message] := rfl
  refine ⟨hmsg, List.filter_sublist _, ?_, ?_⟩
  · rw [hmsg, List.map_append, List.nodup_append]
    refine ⟨hnodup.sublist ((List.filter_sublist _).map _), ?_, ?_⟩
    · simp [serverToMessage, hua]
    · intro a hamem hbmem
      have hmem : a ∈ s.messages.map Message.id := by
        rcases List.mem_map.mp hamem with ⟨m, hm, rfl⟩
        exact List.mem_map.mpr ⟨m, List.mem_of_mem_filter hm, rfl⟩
      simp only [serverToMessage, List.map_cons, List.map_nil, List.mem_cons,
        List.not_mem_nil, or_false] at hbmem
      rcases hbmem with rfl | rfl
      · exact hu hmem
      · exact ha hmem
  · rw [hmsg]
    have hsplit := length_filter_bne_add s.messages tempId
    simp only [List.length_append, List.length_cons, List.length_nil]
    omega

/-- Witness for the success reconciliation at a concrete two-message list
holding one optimistic entry. -/
theorem reconcile_success_spec_witness :
    (sendResolveSuccess false AgentType.onboarding (some "c1") "temp-1"
        ⟨[⟨"m0", Role.assistant, "hello", "t0"⟩, ⟨"temp-1", Role.user, "hi", "t1"⟩],
          some "c1", true, false, AgentType.onboarding, [], none⟩
        ⟨"c1", ⟨"u1", "hi", "tu"⟩, ⟨"a1", "ok", "ta"⟩, ⟨none⟩⟩).messages.length = 3 :=
  (reconcile_success_spec false AgentType.onboarding (some "c1") "temp-1"
    ⟨[⟨"m0", Role.assistant, "hello", "t0"⟩, ⟨"temp-1", Role.user, "hi", "t1"⟩],
      some "c1", true, false, AgentType.onboarding, [], none⟩
    ⟨"c1", ⟨"u1", "hi", "tu"⟩, ⟨"a1", "ok", "ta"⟩, ⟨none⟩⟩
    (by decide) (by decide) (by decide) (by decide) (by decide)).2.2.2

/-!
C6 — how often the history fetch runs.
-/

/-- Helper: when the guard condition holds the history effect is a no-op
and issues no fetch. -/
theorem historyEffect_of_guarded (a : AgentType) (s : ChatState) (o : HistoryOutcome)
    (h : Guarded s) : historyEffect a s o = (s, false) := by
  rcases h with h | h
  · simp [historyEffect, h]
  · cases hc : s.conversationId with
    | none => simp [historyEffect, hc]
    | some id =>
      rw [hc] at h
      simp [historyEffect, hc, h]

/-- Helper: after a successful history effect the guard condition holds, so
no further fetch for the same id can be issued within the instance. -/
theorem historyEffect_ok_guarded (a : AgentType) (s : ChatState) (msgs : List Message) :
    Guarded ((historyEffect a s (HistoryOutcome.ok msgs)).1) := by
  cases hc : s.conversationId with
  | none => simp [historyEffect, Guarded, hc]
  | some id =>
    by_cases hr : s.fetchedConversationIdRef = some id
    · simp [historyEffect, Guarded, hc, hr]
    · simp [historyEffect, Guarded, hc, hr]

/-- Helper: a run of successful effect events from a guarded instance
changes nothing. -/
theorem sessionRun_of_guarded : ∀ (es : List SessionEvent) (ss : SessionState),
    (∀ e ∈ es, isOkEffect e = true) → Guarded ss.inst → sessionRun ss es = ss := by
  intro es
  induction es with
  | nil =>
    intro ss _ _
    rfl
  | cons e tl ih =>
    intro ss hok hg
    have he := hok e (List.mem_cons_self e tl)
    have hstep : sessionStep ss e = ss := by
      cases e with
      | mount a b => simp [isOkEffect] at he
      | effectRun o =>
        cases o with
        | err st => simp [isOkEffect] at he
        | ok msgs => simp [sessionStep, historyEffect_of_guarded _ _ _ hg]
    show sessionRun (sessionStep ss e) tl = ss
    rw [hstep]
    exact ih ss (fun x hx => hok x (List.mem_cons_of_mem e hx)) hg

/-- C6 as amended: within a single mounted component instance whose history
fetches succeed, at most one fetch is issued over any sequence of effect
runs — the ref guard, set synchronously before the request, coalesces
repeated invocations. The per-session form of the claim fails, see the
counterexample: the guard is a component ref, so a remount reissues the
fetch for the same conversation id. -/
theorem historyLoad_at_most_once_per_instance (ss : SessionState) (es : List SessionEvent)
    (hok : ∀ e ∈ es, isOkEffect e = true) :
    (sessionRun ss es).fetchLog.length ≤ ss.fetchLog.length + 1 := by
  cases es with
  | nil => simp [sessionRun]
  | cons e tl =>
    have he := hok e (List.mem_cons_self e tl)
    cases e with
    | mount a b => simp [isOkEffect] at he
    | effectRun o =>
      cases o with
      | err st => simp [isOkEffect] at he
      | ok msgs =>
        have hg : Guarded (sessionStep ss (SessionEvent.effectRun (HistoryOutcome.ok msgs))).inst :=
          historyEffect_ok_guarded ss.initialAgent ss.inst msgs
        have hrun := sessionRun_of_guarded tl
          (sessionStep ss (SessionEvent.effectRun (HistoryOutcome.ok msgs)))
          (fun x hx => hok x (List.mem_cons_of_mem _ hx)) hg
        show (sessionRun (sessionStep ss (SessionEvent.effectRun (HistoryOutcome.ok msgs)))
            tl).fetchLog.length ≤ ss.fetchLog.length + 1
        rw [hrun]
        simp only [sessionStep]
        cases hb : (historyEffect ss.initialAgent ss.inst (HistoryOutcome.ok msgs)).2 <;>
          cases hcid : ss.inst.conversationId <;>
            simp [hb, hcid, Option.toList]

/-- Witness for the per-instance bound: two successive successful effect
runs on a freshly mounted instance issue at most one fetch. -/
theorem historyLoad_at_most_once_witness :
    (sessionRun
        ⟨AgentType.onboarding,
          mountState none AgentType.onboarding [(STORAGE_KEYS AgentType.onboarding, "A")], []⟩
        [SessionEvent.effectRun (HistoryOutcome.ok []),
         SessionEvent.effectRun (HistoryOutcome.ok [])]).fetchLog.length
      ≤ ([] : List String).length + 1 :=
  historyLoad_at_most_once_per_instance
    ⟨AgentType.onboarding,
      mountState none AgentType.onboarding [(STORAGE_KEYS AgentType.onboarding, "A")], []⟩
    [SessionEvent.effectRun (HistoryOutcome.ok []),
     SessionEvent.effectRun (HistoryOutcome.ok [])]
    (by decide)

/-- C6 counterexample: with conversation id A persisted, a mount, a
successful history fetch, a remount and another effect run issue the fetch
for A twice within one session — the claimed per-session at-most-once bound
fails because the guard ref does not survive a remount. -/
theorem historyLoad_refetch_on_remount_cex :
    (sessionRun
        ⟨AgentType.onboarding,
          mountState none AgentType.onboarding [(STORAGE_KEYS AgentType.onboarding, "A")], []⟩
        [SessionEvent.effectRun (HistoryOutcome.ok []),
         SessionEvent.mount none AgentType.onboarding,
         SessionEvent.effectRun (HistoryOutcome.ok [])]).fetchLog = ["A", "A"]
    ∧ ¬ ((sessionRun
        ⟨AgentType.onboarding,
          mountState none AgentType.onboarding [(STORAGE_KEYS AgentType.onboarding, "A")], []⟩
        [SessionEvent.effectRun (HistoryOutcome.ok []),
         SessionEvent.mount none AgentType.onboarding,
         SessionEvent.effectRun (HistoryOutcome.ok [])]).fetchLog.count "A" ≤ 1) := by
  decide

end Fitnesse
